import Mathlib

/-!
Verification of the manycore_svg grid-layout and configurable-information
overlay engine against its source (src/lib.rs, src/style.rs,
src/information_layer.rs, src/information_layer/utils.rs).

Shallow embedding conventions:
* Rust `u64` values are `Nat` (only comparisons and parsing occur, no
  wrapping arithmetic on u64 in the modelled code).
* Rust `i8` loop cursors are `Int` (their values stay within [-1, 4], so no
  i8 overflow is reachable; the embedding keeps exact integer semantics).
* Rust `i32` (`CoordinateT` in lib.rs) is `Int` together with explicit
  saturating operations clamping at the i32 bounds.
* Rust `u16` arithmetic (the older information_layer.rs revision) is `Nat`
  arithmetic reduced modulo 2^16 (release-profile wrapping semantics).
* `BTreeMap<String, _>` is an association list iterated in list order;
  `remove` returns the looked-up value and the list without that key.
-/

/-- Bounds array of a colour configuration: the Rust `[u64; 4]`. -/
structure Bounds4 where
  b0 : Nat
  b1 : Nat
  b2 : Nat
  b3 : Nat
deriving DecidableEq, Repr

/-- Indexing `bounds[i]` for the `[u64; 4]` array. All indexed accesses in
the embedded code are provably within 0..3; indices ≥ 3 return the last
element (unreachable in the embedded runs). -/
def Bounds4.get (b : Bounds4) : Nat → Nat
  | 0 => b.b0
  | 1 => b.b1
  | 2 => b.b2
  | _ => b.b3

/-- Loop of `binary_search_left_insertion_point`
(src/information_layer/utils.rs lines 24-33): the classic leftmost binary
search, `l`/`r` are the Rust `i8` cursors, `val` the probed `u64` value.
The Rust `while l <= r` loop is embedded as well-founded recursion on the
width of the interval. -/
def bslipLoop (b : Bounds4) (val : Nat) (l r : Int) : Int :=
  if l ≤ r then
    let m := l + (r - l) / 2
    if val ≤ b.get m.toNat then
      bslipLoop b val l (m - 1)
    else
      bslipLoop b val (m + 1) r
  else
    l
termination_by (r + 1 - l).toNat
decreasing_by
  all_goals omega

/-- Embedding of `binary_search_left_insertion_point`
(src/information_layer/utils.rs lines 18-46): runs the loop with
`l = 0, r = max_i = 3`, clamps the insertion point into 0..3
(`max(min(l, max_i), 0) as usize`) and steps one bucket down when the
clamped bound strictly exceeds the value. -/
def binary_search_left_insertion_point (bounds : Bounds4) (val : Nat) : Nat :=
  let l := bslipLoop bounds val 0 3
  let corrected_l := (max (min l 3) 0).toNat
  if corrected_l > 0 ∧ bounds.get corrected_l > val then
    corrected_l - 1
  else
    corrected_l

theorem int_toNat_two : ((2 : Int)).toNat = 2 := rfl

theorem int_toNat_three : ((3 : Int)).toNat = 3 := rfl

theorem bslipLoop_0_m1 (b : Bounds4) (v : Nat) : bslipLoop b v 0 (-1) = 0 := by
  rw [bslipLoop]; norm_num

theorem bslipLoop_1_0 (b : Bounds4) (v : Nat) : bslipLoop b v 1 0 = 1 := by
  rw [bslipLoop]; norm_num

theorem bslipLoop_2_1 (b : Bounds4) (v : Nat) : bslipLoop b v 2 1 = 2 := by
  rw [bslipLoop]; norm_num

theorem bslipLoop_3_2 (b : Bounds4) (v : Nat) : bslipLoop b v 3 2 = 3 := by
  rw [bslipLoop]; norm_num

theorem bslipLoop_4_3 (b : Bounds4) (v : Nat) : bslipLoop b v 4 3 = 4 := by
  rw [bslipLoop]; norm_num

theorem bslipLoop_0_0 (b : Bounds4) (v : Nat) :
    bslipLoop b v 0 0 = if v ≤ b.b0 then 0 else 1 := by
  rw [bslipLoop]
  norm_num [Bounds4.get, Int.toNat_zero]
  split <;> simp [bslipLoop_0_m1, bslipLoop_1_0]

theorem bslipLoop_3_3 (b : Bounds4) (v : Nat) :
    bslipLoop b v 3 3 = if v ≤ b.b3 then 3 else 4 := by
  rw [bslipLoop]
  norm_num [Bounds4.get, int_toNat_three]
  split <;> simp [bslipLoop_3_2, bslipLoop_4_3]

theorem bslipLoop_2_3 (b : Bounds4) (v : Nat) :
    bslipLoop b v 2 3 = if v ≤ b.b2 then 2 else if v ≤ b.b3 then 3 else 4 := by
  rw [bslipLoop]
  norm_num [Bounds4.get, int_toNat_two]
  split <;> simp [bslipLoop_2_1, bslipLoop_3_3]

/-- Closed form of the search loop started on the full interval `[0, 3]`:
it returns the leftmost index whose bound is ≥ `val`, or 4 when none is. -/
theorem bslipLoop_closed_form (b : Bounds4) (v : Nat) :
    bslipLoop b v 0 3 =
      if v ≤ b.b1 then (if v ≤ b.b0 then 0 else 1)
      else if v ≤ b.b2 then 2
      else if v ≤ b.b3 then 3
      else 4 := by
  rw [bslipLoop]
  norm_num [Bounds4.get, Int.toNat_one]
  split <;> simp [bslipLoop_0_0, bslipLoop_2_3]

/-- Closed form of `binary_search_left_insertion_point`: leftmost insertion
point clamped to 0..3, stepped one bucket down when the bound at the
insertion point strictly exceeds the value. -/
theorem bslip_closed_form (b : Bounds4) (v : Nat) :
    binary_search_left_insertion_point b v =
      if v ≤ b.b1 then
        (if v ≤ b.b0 then 0 else if v < b.b1 then 0 else 1)
      else if v ≤ b.b2 then (if v < b.b2 then 1 else 2)
      else if v ≤ b.b3 then (if v < b.b3 then 2 else 3)
      else 3 := by
  unfold binary_search_left_insertion_point
  rw [bslipLoop_closed_form]
  by_cases h1 : v ≤ b.b1 <;> by_cases h0 : v ≤ b.b0 <;>
    by_cases h2 : v ≤ b.b2 <;> by_cases h3 : v ≤ b.b3 <;>
      simp only [h0, h1, h2, h3, if_true, if_false, ite_true, ite_false] <;>
        norm_num [Bounds4.get, Int.toNat_zero, Int.toNat_one, int_toNat_two,
          int_toNat_three] <;>
        omega

/-- C1: for ascending bounds, `binary_search_left_insertion_point` returns
an index in 0..3; it returns 0 below the first bound; when the value equals
a bound it returns the lowest-indexed bucket whose bound equals the value;
and when the value equals no bound it returns 3 at or above the last bound
and returns `i` for a value between bounds `i` and `i+1` (the boundary-tie
clause of the claim takes precedence over the other clauses exactly where
they overlap, i.e. when the value equals a duplicated bound). -/
theorem C1_bucket_index_correct (b : Bounds4) (v : Nat)
    (hasc : b.b0 ≤ b.b1 ∧ b.b1 ≤ b.b2 ∧ b.b2 ≤ b.b3) :
    binary_search_left_insertion_point b v ≤ 3 ∧
    (v < b.b0 → binary_search_left_insertion_point b v = 0) ∧
    (∀ i : Nat, i < 4 → b.get i = v →
      (∀ j : Nat, j < i → b.get j ≠ v) →
      binary_search_left_insertion_point b v = i) ∧
    ((∀ i : Nat, i < 4 → b.get i ≠ v) → b.b3 ≤ v →
      binary_search_left_insertion_point b v = 3) ∧
    ((∀ i : Nat, i < 4 → b.get i ≠ v) → ∀ i : Nat, i < 3 →
      b.get i ≤ v → v < b.get (i + 1) →
      binary_search_left_insertion_point b v = i) := by
  obtain ⟨h01, h12, h23⟩ := hasc
  rw [bslip_closed_form]
  refine ⟨?_, ?_, ?_, ?_, ?_⟩
  · split_ifs <;> omega
  · intro hv
    split_ifs <;> omega
  · intro i hi hbi hlow
    interval_cases i
    · simp only [Bounds4.get] at hbi
      split_ifs <;> omega
    · have l0 := hlow 0 (by norm_num)
      simp only [Bounds4.get] at hbi l0
      split_ifs <;> omega
    · have l0 := hlow 0 (by norm_num)
      have l1 := hlow 1 (by norm_num)
      simp only [Bounds4.get] at hbi l0 l1
      split_ifs <;> omega
    · have l0 := hlow 0 (by norm_num)
      have l1 := hlow 1 (by norm_num)
      have l2 := hlow 2 (by norm_num)
      simp only [Bounds4.get] at hbi l0 l1 l2
      split_ifs <;> omega
  · intro hne hv
    have n3 := hne 3 (by norm_num)
    simp only [Bounds4.get] at n3
    split_ifs <;> omega
  · intro hne i hi hle hlt
    have n0 := hne 0 (by norm_num)
    have n1 := hne 1 (by norm_num)
    have n2 := hne 2 (by norm_num)
    have n3 := hne 3 (by norm_num)
    simp only [Bounds4.get] at n0 n1 n2 n3
    interval_cases i <;>
      simp only [Bounds4.get] at hle hlt <;> split_ifs <;> omega

/-- Witness for C1 at `bounds = [10, 20, 30, 40]`, `value = 25`
(the spec's own end-to-end example: 25 falls in bucket 1). -/
theorem C1_bucket_index_correct_witness :
    binary_search_left_insertion_point ⟨10, 20, 30, 40⟩ 25 ≤ 3 ∧
    binary_search_left_insertion_point ⟨10, 20, 30, 40⟩ 25 = 1 := by
  have h := C1_bucket_index_correct ⟨10, 20, 30, 40⟩ 25 (by decide)
  exact ⟨h.1, h.2.2.2.2 (by decide) 1 (by decide) (by decide) (by decide)⟩

/-- Loop of the method `InformationLayer::binary_search_left_insertion_point`
(src/information_layer.rs lines 87-96): textually the same loop as the one
in utils.rs; its upper cursor starts from `max = (bounds.len() - 1) as i8`,
which is 3 for the `[u64; 4]` array. -/
def InformationLayer.bslipLoop (b : Bounds4) (val : Nat) (l r : Int) : Int :=
  if l ≤ r then
    let m := l + (r - l) / 2
    if val ≤ b.get m.toNat then
      InformationLayer.bslipLoop b val l (m - 1)
    else
      InformationLayer.bslipLoop b val (m + 1) r
  else
    l
termination_by (r + 1 - l).toNat
decreasing_by
  all_goals omega

/-- Embedding of the method `InformationLayer::binary_search_left_insertion_point`
(src/information_layer.rs lines 81-108). -/
def InformationLayer.binary_search_left_insertion_point
    (bounds : Bounds4) (val : Nat) : Nat :=
  let l := InformationLayer.bslipLoop bounds val 0 3
  let corrected_l := (max (min l 3) 0).toNat
  if corrected_l > 0 ∧ bounds.get corrected_l > val then
    corrected_l - 1
  else
    corrected_l

/-- The two textually duplicated loops agree on every interval. -/
theorem method_loop_eq (b : Bounds4) (v : Nat) (l r : Int) :
    InformationLayer.bslipLoop b v l r = bslipLoop b v l r := by
  rw [InformationLayer.bslipLoop, bslipLoop]
  by_cases h : l ≤ r
  · simp only [if_pos h]
    by_cases hc : v ≤ b.get (l + (r - l) / 2).toNat
    · simp only [if_pos hc]
      exact method_loop_eq b v l (l + (r - l) / 2 - 1)
    · simp only [if_neg hc]
      exact method_loop_eq b v (l + (r - l) / 2 + 1) r
  · simp only [if_neg h]
termination_by (r + 1 - l).toNat
decreasing_by all_goals omega

/-- C9: the module-level function `binary_search_left_insertion_point` in
information_layer/utils.rs and the method
`InformationLayer::binary_search_left_insertion_point` in
information_layer.rs return the same index for every bounds array and every
value, with no ascending-order precondition. -/
theorem C9_duplicate_searches_agree (b : Bounds4) (v : Nat) :
    InformationLayer.binary_search_left_insertion_point b v =
      binary_search_left_insertion_point b v := by
  unfold InformationLayer.binary_search_left_insertion_point
    binary_search_left_insertion_point
  rw [method_loop_eq]

/-- Row cursor of the grid-composition loop (src/lib.rs lines 185-196):
`r` starts at 0 and is incremented whenever `i > 0 && c == 0`, i.e. whenever
the linear index `i ≥ 1` is a multiple of the column count. `gridRow cols i`
is the value of `r` used for the core at linear index `i` when the loop
visits indices 0, 1, 2, ... contiguously. -/
def gridRow (cols : Nat) : Nat → Nat
  | 0 => 0
  | i + 1 => gridRow cols i + (if (i + 1) % cols = 0 then 1 else 0)

/-- Grid position assigned to the core at linear index `i`
(src/lib.rs lines 190-199): the column is `i % columns`, the row is the
incrementally maintained row cursor. -/
def gridPosition (cols i : Nat) : Nat × Nat :=
  (gridRow cols i, i % cols)

/-- The incrementally maintained row cursor equals integer division of the
linear index by the column count. -/
theorem gridRow_eq_div (cols : Nat) (hc : 1 ≤ cols) (i : Nat) :
    gridRow cols i = i / cols := by
  induction i with
  | zero => simp [gridRow]
  | succ n ih =>
    rw [gridRow, ih, Nat.succ_div]
    have hdvd : cols ∣ (n + 1) ↔ (n + 1) % cols = 0 :=
      Nat.dvd_iff_mod_eq_zero
    by_cases h : (n + 1) % cols = 0
    · simp [h, hdvd.mpr h]
    · simp only [h, if_false]
      rw [if_neg (by rw [hdvd]; exact h)]

/-- C6: for every grid with `cols ≥ 1` and linear indices below
`rows * cols`, the assigned position satisfies `col = i % cols` and
`i = row * cols + col`, and distinct indices get distinct positions. -/
theorem C6_grid_position_correct (cols rows i j : Nat) (hc : 1 ≤ cols)
    (hi : i < rows * cols) (hj : j < rows * cols) :
    (gridPosition cols i).2 = i % cols ∧
    i = (gridPosition cols i).1 * cols + (gridPosition cols i).2 ∧
    (gridPosition cols i = gridPosition cols j → i = j) := by
  have hrow_i := gridRow_eq_div cols hc i
  have hrow_j := gridRow_eq_div cols hc j
  refine ⟨rfl, ?_, ?_⟩
  · simp only [gridPosition, hrow_i]
    rw [Nat.mul_comm]
    exact (Nat.div_add_mod i cols).symm
  · intro h
    have h1 : gridRow cols i = gridRow cols j := congrArg Prod.fst h
    have h2 : i % cols = j % cols := congrArg Prod.snd h
    rw [hrow_i, hrow_j] at h1
    calc i = cols * (i / cols) + i % cols := (Nat.div_add_mod i cols).symm
      _ = cols * (j / cols) + j % cols := by rw [h1, h2]
      _ = j := Nat.div_add_mod j cols

/-- Witness for C6 on a 2-column, 2-row grid at indices 3 and 2. -/
theorem C6_grid_position_correct_witness :
    (gridPosition 2 3).2 = 3 % 2 ∧
    3 = (gridPosition 2 3).1 * 2 + (gridPosition 2 3).2 ∧
    (gridPosition 2 3 = gridPosition 2 2 → 3 = 2) := by
  exact C6_grid_position_correct 2 2 3 2 (by decide) (by decide) (by decide)

/-- Colour array of a colour configuration: the Rust `[String; 4]`. -/
structure Colours4 where
  c0 : String
  c1 : String
  c2 : String
  c3 : String
deriving DecidableEq, Repr

/-- Indexing `colours[i]` for the `[String; 4]` array. -/
def Colours4.get (c : Colours4) : Nat → String
  | 0 => c.c0
  | 1 => c.c1
  | 2 => c.c2
  | _ => c.c3

/-- Modelled from the spec: the routing directive payload (`Routing(algorithm)`
in §3) comes from render_settings.rs / manycore_parser, neither under src/;
only the requested algorithm's identity reaches the routing collaborator. -/
structure RoutingConfiguration where
  algorithm : String
deriving DecidableEq, Repr

/-- Colour configuration consumed by Fill/ColouredText handling, with the
`bounds()` / `colours()` accessors used in utils.rs. Modelled from the spec:
its defining struct lives in render_settings.rs, which is not under src/;
§3 fixes it as ascending `bounds[4]` with 4 index-aligned colours. -/
structure ColourSettings where
  bounds : Bounds4
  colours : Colours4
deriving DecidableEq, Repr

/-- Modelled from the spec: `FieldConfiguration` is defined in
render_settings.rs, which is not under src/; §3 lists its variants —
Text(label), Fill(bounds, colors), ColouredText(label, bounds, colors),
Routing(algorithm), Boolean(flag) — and utils.rs / lib.rs match on exactly
these constructors. -/
inductive FieldConfiguration where
  | Text (title : String)
  | Fill (colour_config : ColourSettings)
  | ColouredText (title : String) (colour_config : ColourSettings)
  | Routing (routing_configuration : RoutingConfiguration)
  | Boolean (flag : Bool)
deriving DecidableEq, Repr

/-- Smallest i32 value: lower clamp of the `CoordinateT = i32` saturating
arithmetic (src/lib.rs line 35). -/
def I32_MIN : Int := -2147483648

/-- Largest i32 value: upper clamp of the `CoordinateT = i32` saturating
arithmetic. -/
def I32_MAX : Int := 2147483647

/-- Rust `i32::saturating_add`: exact sum clamped into the i32 range. -/
def saturating_add (a b : Int) : Int := max I32_MIN (min (a + b) I32_MAX)

/-- Rust `i32::saturating_mul`: exact product clamped into the i32 range. -/
def saturating_mul (a b : Int) : Int := max I32_MIN (min (a * b) I32_MAX)

/-- Padding between text and element border
(src/information_layer.rs line 9: `OFFSET_FROM_BORDER = 1`). -/
def OFFSET_FROM_BORDER : Int := 1

/-- Line-height advance between stacked text lines
(src/information_layer/utils.rs line 15: `FONT_SIZE_WITH_OFFSET = 18`). -/
def FONT_SIZE_WITH_OFFSET : Int := 18

/-- Modelled from the spec: `DEFAULT_FONT_SIZE` lives in render_settings.rs,
which is not under src/; the src revision of information_layer.rs fixes the
serialized font size to "16px" (line 44). The claims do not depend on this
value. -/
def DEFAULT_FONT_SIZE : String := "16px"

/-- Filter reference attached to groups that received a fill rule
(src/information_layer.rs line 10). Modelled from the spec: the
`TEXT_BACKGROUND_ID` fragment id comes from text_background.rs, which is
not under src/; the claims do not depend on the spelling. -/
def TEXT_GROUP_FILTER : String := "url(#textBackground)"

/-- Modelled from the spec: `ID_KEY` is the reserved identity key exported
by manycore_parser (not under src/); §4.3 reserves it for the identity
line. Its concrete spelling is immaterial to the claims. -/
def ID_KEY : String := "@id"

/-- Reserved whole-cell coordinates key; src/information_layer.rs line 123
matches it as the literal "@coordinates". -/
def COORDINATES_KEY : String := "@coordinates"

/-- Rust `str::parse::<u64>()`: an optional leading '+', then one or more
ascii digits, rejecting the empty string, non-digit characters and values
outside the u64 range. -/
def parseU64 (s : String) : Option Nat :=
  let t := if s.startsWith "+" then s.drop 1 else s
  if t.isEmpty then none
  else if t.all Char.isDigit then
    let n := t.foldl (fun a c => a * 10 + (c.toNat - 48)) 0
    if n < 2 ^ 64 then some n else none
  else none

/-- Positioned text record (src/information_layer.rs lines 12-30). The
coordinate type follows the current CoordinateT = i32 of lib.rs/utils.rs. -/
structure TextInformation where
  x : Int
  y : Int
  font_size : String
  font_family : String
  text_anchor : String
  dominant_baseline : String
  fill : String
  value : String
deriving DecidableEq, Repr

/-- Constructor `TextInformation::new` (src/information_layer.rs lines
32-56): fixes the font family to "Roboto Mono" and defaults the fill to
"black" when none is given. The utils.rs call sites additionally pass the
font size (their revision of the constructor takes it as an argument),
mirrored here by the `font_size` parameter; the src revision hard-codes
"16px", which is the modelled `DEFAULT_FONT_SIZE` passed at every call. -/
def TextInformation.new (x y : Int) (font_size : String)
    (text_anchor dominant_baseline : String) (fill : Option String)
    (value : String) : TextInformation :=
  { x := x
    y := y
    font_size := font_size
    font_family := "Roboto Mono"
    text_anchor := text_anchor
    dominant_baseline := dominant_baseline
    fill := match fill with
            | some f => f
            | none => "black"
    value := value }

/-- Overlay group for one element (src/information_layer.rs lines 58-64):
an optional background-filter reference plus the ordered text lines. -/
structure ProcessingInformation where
  filter : Option String
  information : List TextInformation
deriving DecidableEq, Repr

/-- Element handed to `generate_with_id`: the `WithID + WithXMLAttributes`
target (manycore_parser traits, not under src/) exposing `id()`,
`variant()` (the identity-selector prefix used in CSS rules) and
`other_attributes()` (the optional string-keyed attribute map). -/
structure Target where
  id : Nat
  variant : String
  other_attributes : Option (List (String × String))
deriving DecidableEq, Repr

/-- Embedding of `get_attribute_colour` (src/information_layer/utils.rs
lines 172-187): parse the attribute value as u64 and pick the bucketed
colour, or return no colour when the parse fails. -/
def get_attribute_colour (bounds : Bounds4) (colours : Colours4)
    (attribute_value : String) : Option String :=
  match parseU64 attribute_value with
  | some value_num =>
      some (colours.get (binary_search_left_insertion_point bounds value_num))
  | none => none

/-- Body of the `for k in configuration.keys()` loop of `generate_with_id`
(src/information_layer/utils.rs lines 87-168), processing one configured
key against the element's attribute map. The threaded state is the overlay
group, the vertical cursor `base_y`, and the shared stylesheet text. -/
def process_key (base_x : Int)
    (configuration : List (String × FieldConfiguration))
    (attrs : List (String × String)) (target_id : Nat)
    (target_variant : String) (text_anchor : String)
    (state : ProcessingInformation × Int × String) (k : String) :
    ProcessingInformation × Int × String :=
  let group := state.1
  let base_y := state.2.1
  let css := state.2.2
  if k = ID_KEY ∨ k = COORDINATES_KEY then
    (group, base_y, css)
  else
    match configuration.lookup k, attrs.lookup k with
    | some field_configuration, some value =>
      match field_configuration with
      | FieldConfiguration.Text title =>
          ({ group with information := group.information ++
              [TextInformation.new base_x base_y DEFAULT_FONT_SIZE text_anchor
                "text-before-edge" none (title ++ ": " ++ value)] },
           saturating_add base_y FONT_SIZE_WITH_OFFSET, css)
      | FieldConfiguration.Fill colour_config =>
          match parseU64 value with
          | some value_num =>
              let fill_idx :=
                binary_search_left_insertion_point colour_config.bounds value_num
              ({ group with filter := some TEXT_GROUP_FILTER },
               base_y,
               css ++ "\n#" ++ target_variant ++ toString target_id ++
                 " \x7bfill: " ++ colour_config.colours.get fill_idx ++ ";\x7d")
          | none => (group, base_y, css)
      | FieldConfiguration.ColouredText title colour_config =>
          let fill := get_attribute_colour colour_config.bounds
            colour_config.colours value
          ({ group with information := group.information ++
              [TextInformation.new base_x base_y DEFAULT_FONT_SIZE text_anchor
                "text-before-edge" fill (title ++ ": " ++ value)] },
           saturating_add base_y FONT_SIZE_WITH_OFFSET, css)
      | _ => (group, base_y, css)
    | _, _ => (group, base_y, css)

/-- Embedding of `generate_with_id` (src/information_layer/utils.rs lines
49-170): pad the origin inward, render the identity line first when the
identity key is configured as Text, then process the remaining configured
keys in key order against the element's attribute map (skipped entirely
when the element has no attribute map). Returns the generated group and the
extended stylesheet. -/
def generate_with_id (base_x base_y : Int)
    (configuration : List (String × FieldConfiguration)) (target : Target)
    (group : ProcessingInformation) (text_anchor : String) (css : String) :
    ProcessingInformation × String :=
  let base_x := saturating_add base_x OFFSET_FROM_BORDER
  let base_y := saturating_add base_y OFFSET_FROM_BORDER
  let idStep : ProcessingInformation × Int :=
    match configuration.lookup ID_KEY with
    | some (FieldConfiguration.Text title) =>
        ({ group with information := group.information ++
            [TextInformation.new base_x base_y DEFAULT_FONT_SIZE text_anchor
              "text-before-edge" none (title ++ ": " ++ toString target.id)] },
         saturating_add base_y FONT_SIZE_WITH_OFFSET)
    | some _ => (group, base_y)
    | none => (group, base_y)
  match target.other_attributes with
  | some attrs =>
      let final := (configuration.map Prod.fst).foldl
        (process_key base_x configuration attrs target.id target.variant
          text_anchor)
        (idStep.1, idStep.2, css)
      (final.1, final.2.2)
  | none => (idStep.1, css)

/-- C4: when a key is configured as Fill and the element's attribute value
does not parse as u64, processing that key appends no CSS rule and leaves
the overlay group (its background-filter flag included), the cursor and the
stylesheet untouched; when the value parses, processing appends exactly the
rule "#<variant><id> \x7bfill: <bucketed colour>;\x7d" (with its leading
newline) to the stylesheet and sets the group's filter. -/
theorem C4_fill_parse_behaviour (base_x : Int)
    (configuration : List (String × FieldConfiguration))
    (attrs : List (String × String)) (tid : Nat) (tvar anchor : String)
    (group : ProcessingInformation) (base_y : Int) (css : String)
    (k : String) (cc : ColourSettings) (v : String)
    (hk1 : k ≠ ID_KEY) (hk2 : k ≠ COORDINATES_KEY)
    (hconf : configuration.lookup k = some (FieldConfiguration.Fill cc))
    (hval : attrs.lookup k = some v) :
    (parseU64 v = none →
      process_key base_x configuration attrs tid tvar anchor
        (group, base_y, css) k = (group, base_y, css)) ∧
    (∀ n : Nat, parseU64 v = some n →
      process_key base_x configuration attrs tid tvar anchor
        (group, base_y, css) k =
        ({ group with filter := some TEXT_GROUP_FILTER }, base_y,
         css ++ "\n#" ++ tvar ++ toString tid ++ " \x7bfill: " ++
           cc.colours.get (binary_search_left_insertion_point cc.bounds n) ++
           ";\x7d")) := by
  constructor
  · intro hparse
    simp [process_key, hk1, hk2, hconf, hval, hparse]
  · intro n hparse
    simp [process_key, hk1, hk2, hconf, hval, hparse]

/-- Witness for C4: a Fill-configured key "load" whose value "abc" fails to
parse leaves the state untouched, and the same key with value "25" appends
the bucket-1 colour rule and sets the filter. -/
theorem C4_fill_parse_behaviour_witness :
    (parseU64 "abc" = none →
      process_key 0 [("load", FieldConfiguration.Fill
          ⟨⟨10, 20, 30, 40⟩, ⟨"c0", "c1", "c2", "c3"⟩⟩)]
        [("load", "abc")] 7 "c" "start" (⟨none, []⟩, 0, "") "load"
        = (⟨none, []⟩, 0, "")) ∧
    (∀ n : Nat, parseU64 "abc" = some n →
      process_key 0 [("load", FieldConfiguration.Fill
          ⟨⟨10, 20, 30, 40⟩, ⟨"c0", "c1", "c2", "c3"⟩⟩)]
        [("load", "abc")] 7 "c" "start" (⟨none, []⟩, 0, "") "load"
        = ((⟨some TEXT_GROUP_FILTER, []⟩ : ProcessingInformation), 0,
           "" ++ "\n#" ++ "c" ++ toString 7 ++ " \x7bfill: " ++
             Colours4.get ⟨"c0", "c1", "c2", "c3"⟩
               (binary_search_left_insertion_point ⟨10, 20, 30, 40⟩ n) ++
             ";\x7d")) := by
  exact C4_fill_parse_behaviour 0
    [("load", FieldConfiguration.Fill ⟨⟨10, 20, 30, 40⟩, ⟨"c0", "c1", "c2", "c3"⟩⟩)]
    [("load", "abc")] 7 "c" "start" ⟨none, []⟩ 0 "" "load"
    ⟨⟨10, 20, 30, 40⟩, ⟨"c0", "c1", "c2", "c3"⟩⟩ "abc"
    (by decide) (by decide) (by decide) (by decide)

/-- C5: a key configured as ColouredText always emits its text line
"<label>: <value>" and always advances the cursor by the fixed line height,
whether or not the value parses; the line's fill is the bucketed colour on
parse success and the default black on parse failure. -/
theorem C5_coloured_text_always_emits (base_x : Int)
    (configuration : List (String × FieldConfiguration))
    (attrs : List (String × String)) (tid : Nat) (tvar anchor : String)
    (group : ProcessingInformation) (base_y : Int) (css : String)
    (k : String) (title : String) (cc : ColourSettings) (v : String)
    (hk1 : k ≠ ID_KEY) (hk2 : k ≠ COORDINATES_KEY)
    (hconf : configuration.lookup k
      = some (FieldConfiguration.ColouredText title cc))
    (hval : attrs.lookup k = some v) :
    process_key base_x configuration attrs tid tvar anchor
        (group, base_y, css) k =
      ({ group with information := group.information ++
          [TextInformation.new base_x base_y DEFAULT_FONT_SIZE anchor
            "text-before-edge" (get_attribute_colour cc.bounds cc.colours v)
            (title ++ ": " ++ v)] },
       saturating_add base_y FONT_SIZE_WITH_OFFSET, css) ∧
    (parseU64 v = none →
      (TextInformation.new base_x base_y DEFAULT_FONT_SIZE anchor
        "text-before-edge" (get_attribute_colour cc.bounds cc.colours v)
        (title ++ ": " ++ v)).fill = "black") ∧
    (∀ n : Nat, parseU64 v = some n →
      (TextInformation.new base_x base_y DEFAULT_FONT_SIZE anchor
        "text-before-edge" (get_attribute_colour cc.bounds cc.colours v)
        (title ++ ": " ++ v)).fill =
        cc.colours.get (binary_search_left_insertion_point cc.bounds n)) := by
  refine ⟨?_, ?_, ?_⟩
  · simp [process_key, hk1, hk2, hconf, hval]
  · intro hparse
    simp [TextInformation.new, get_attribute_colour, hparse]
  · intro n hparse
    simp [TextInformation.new, get_attribute_colour, hparse]

/-- Witness for C5: a ColouredText key "temp" with unparsable value "hot"
still emits the line "Temp: hot" with the default black fill and advances
the cursor by 18. -/
theorem C5_coloured_text_always_emits_witness :
    process_key 0 [("temp", FieldConfiguration.ColouredText "Temp"
        ⟨⟨10, 20, 30, 40⟩, ⟨"c0", "c1", "c2", "c3"⟩⟩)]
      [("temp", "hot")] 7 "c" "start" (⟨none, []⟩, 0, "") "temp" =
      ((⟨none, [TextInformation.new 0 0 DEFAULT_FONT_SIZE "start"
          "text-before-edge"
          (get_attribute_colour ⟨10, 20, 30, 40⟩ ⟨"c0", "c1", "c2", "c3"⟩ "hot")
          ("Temp" ++ ": " ++ "hot")]⟩ : ProcessingInformation),
       saturating_add 0 FONT_SIZE_WITH_OFFSET, "") ∧
    (parseU64 "hot" = none →
      (TextInformation.new 0 0 DEFAULT_FONT_SIZE "start" "text-before-edge"
        (get_attribute_colour ⟨10, 20, 30, 40⟩ ⟨"c0", "c1", "c2", "c3"⟩ "hot")
        ("Temp" ++ ": " ++ "hot")).fill = "black") ∧
    (∀ n : Nat, parseU64 "hot" = some n →
      (TextInformation.new 0 0 DEFAULT_FONT_SIZE "start" "text-before-edge"
        (get_attribute_colour ⟨10, 20, 30, 40⟩ ⟨"c0", "c1", "c2", "c3"⟩ "hot")
        ("Temp" ++ ": " ++ "hot")).fill =
        Colours4.get ⟨"c0", "c1", "c2", "c3"⟩
          (binary_search_left_insertion_point ⟨10, 20, 30, 40⟩ n)) := by
  exact C5_coloured_text_always_emits 0
    [("temp", FieldConfiguration.ColouredText "Temp"
        ⟨⟨10, 20, 30, 40⟩, ⟨"c0", "c1", "c2", "c3"⟩⟩)]
    [("temp", "hot")] 7 "c" "start" ⟨none, []⟩ 0 "" "temp" "Temp"
    ⟨⟨10, 20, 30, 40⟩, ⟨"c0", "c1", "c2", "c3"⟩⟩ "hot"
    (by decide) (by decide) (by decide) (by decide)

/-- Processing one key only ever appends to the group's text lines. -/
theorem process_key_info_prefix (base_x : Int)
    (configuration : List (String × FieldConfiguration))
    (attrs : List (String × String)) (tid : Nat) (tvar anchor : String)
    (st : ProcessingInformation × Int × String) (k : String) :
    ∃ t, (process_key base_x configuration attrs tid tvar anchor st k).1.information
      = st.1.information ++ t := by
  obtain ⟨g, y, css⟩ := st
  by_cases hk : k = ID_KEY ∨ k = COORDINATES_KEY
  · exact ⟨[], by simp [process_key, hk]⟩
  · rcases hc : configuration.lookup k with _ | fc
    · exact ⟨[], by simp [process_key, hk, hc]⟩
    · rcases ha : attrs.lookup k with _ | v
      · exact ⟨[], by simp [process_key, hk, hc, ha]⟩
      · cases fc with
        | Text title =>
            exact ⟨[TextInformation.new base_x y DEFAULT_FONT_SIZE anchor
                "text-before-edge" none (title ++ ": " ++ v)],
              by simp [process_key, hk, hc, ha]⟩
        | Fill cc =>
            rcases hp : parseU64 v with _ | n
            · exact ⟨[], by simp [process_key, hk, hc, ha, hp]⟩
            · exact ⟨[], by simp [process_key, hk, hc, ha, hp]⟩
        | ColouredText title cc =>
            exact ⟨[TextInformation.new base_x y DEFAULT_FONT_SIZE anchor
                "text-before-edge" (get_attribute_colour cc.bounds cc.colours v)
                (title ++ ": " ++ v)],
              by simp [process_key, hk, hc, ha]⟩
        | Routing rc =>
            exact ⟨[], by simp [process_key, hk, hc, ha]⟩
        | Boolean fl =>
            exact ⟨[], by simp [process_key, hk, hc, ha]⟩

/-- Folding the per-key processing over any key list only ever appends to
the group's text lines. -/
theorem foldl_process_key_info_prefix (base_x : Int)
    (configuration : List (String × FieldConfiguration))
    (attrs : List (String × String)) (tid : Nat) (tvar anchor : String) :
    ∀ (ks : List String) (st : ProcessingInformation × Int × String),
      ∃ t, ((ks.foldl (process_key base_x configuration attrs tid tvar anchor)
          st).1.information = st.1.information ++ t) := by
  intro ks
  induction ks with
  | nil => exact fun st => ⟨[], by simp⟩
  | cons k ks ih =>
      intro st
      obtain ⟨t1, h1⟩ :=
        process_key_info_prefix base_x configuration attrs tid tvar anchor st k
      obtain ⟨t2, h2⟩ :=
        ih (process_key base_x configuration attrs tid tvar anchor st k)
      exact ⟨t1 ++ t2, by rw [List.foldl_cons, h2, h1, List.append_assoc]⟩

/-- C8: when the identity key is configured as `Text label`, the group
generated from an empty overlay group has "<label>: <id>" as its first text
line (so it precedes every other configured attribute line), and the whole
result equals the remaining-key fold started from the group already holding
the identity line with the vertical cursor already advanced by the fixed
line height below the padded origin. -/
theorem C8_identity_line_first (base_x base_y : Int)
    (configuration : List (String × FieldConfiguration)) (target : Target)
    (anchor css : String) (label : String)
    (hid : configuration.lookup ID_KEY = some (FieldConfiguration.Text label)) :
    (generate_with_id base_x base_y configuration target ⟨none, []⟩ anchor
        css).1.information.head? =
      some (TextInformation.new (saturating_add base_x OFFSET_FROM_BORDER)
        (saturating_add base_y OFFSET_FROM_BORDER) DEFAULT_FONT_SIZE anchor
        "text-before-edge" none (label ++ ": " ++ toString target.id)) ∧
    (∀ attrs, target.other_attributes = some attrs →
      generate_with_id base_x base_y configuration target ⟨none, []⟩ anchor
          css =
        (let final := (configuration.map Prod.fst).foldl
          (process_key (saturating_add base_x OFFSET_FROM_BORDER) configuration
            attrs target.id target.variant anchor)
          (⟨none, [TextInformation.new (saturating_add base_x OFFSET_FROM_BORDER)
              (saturating_add base_y OFFSET_FROM_BORDER) DEFAULT_FONT_SIZE
              anchor "text-before-edge" none
              (label ++ ": " ++ toString target.id)]⟩,
           saturating_add (saturating_add base_y OFFSET_FROM_BORDER)
             FONT_SIZE_WITH_OFFSET, css)
        (final.1, final.2.2))) := by
  constructor
  · rcases hattrs : target.other_attributes with _ | attrs
    · simp [generate_with_id, hid, hattrs]
    · obtain ⟨t, ht⟩ := foldl_process_key_info_prefix
        (saturating_add base_x OFFSET_FROM_BORDER) configuration attrs
        target.id target.variant anchor (configuration.map Prod.fst)
        (⟨none, [TextInformation.new (saturating_add base_x OFFSET_FROM_BORDER)
            (saturating_add base_y OFFSET_FROM_BORDER) DEFAULT_FONT_SIZE
            anchor "text-before-edge" none
            (label ++ ": " ++ toString target.id)]⟩,
         saturating_add (saturating_add base_y OFFSET_FROM_BORDER)
           FONT_SIZE_WITH_OFFSET, css)
      simp only [generate_with_id, hid, hattrs]
      simp only [List.nil_append] at ht ⊢
      rw [ht]
      simp
  · intro attrs hattrs
    simp [generate_with_id, hid, hattrs]

/-- Witness for C8: identity key configured as `Text "ID"` on an element
with id 7 puts "ID: 7" first. -/
theorem C8_identity_line_first_witness :
    (generate_with_id 0 0 [(ID_KEY, FieldConfiguration.Text "ID")]
        ⟨7, "c", some []⟩ ⟨none, []⟩ "start" "").1.information.head? =
      some (TextInformation.new (saturating_add 0 OFFSET_FROM_BORDER)
        (saturating_add 0 OFFSET_FROM_BORDER) DEFAULT_FONT_SIZE "start"
        "text-before-edge" none ("ID" ++ ": " ++ toString (7 : Nat))) := by
  exact (C8_identity_line_first 0 0 [(ID_KEY, FieldConfiguration.Text "ID")]
    ⟨7, "c", some []⟩ "start" "" "ID" (by decide)).1

/-- Routing result key (manycore_parser's `RoutingTarget`, not under src/):
loads attach either to a core identity or to a sink identity
(src/lib.rs lines 330-331). -/
inductive RoutingTarget where
  | Core (id : Nat)
  | Sink (id : Nat)
deriving DecidableEq, Repr

/-- Modelled from the spec: error.rs is not under src/; §7 lists the error
kinds, each carrying a context message, and utils.rs constructs
ConnectionError / ManycoreMismatch values through `SVGError::new`. -/
inductive SVGErrorKind where
  | ConnectionError (msg : String)
  | ManycoreMismatch (msg : String)
  | ConfigurationError (msg : String)
deriving DecidableEq, Repr

/-- Error wrapper used across the crate (error.rs, not under src/). -/
structure SVGError where
  kind : SVGErrorKind
deriving DecidableEq, Repr

/-- Modelled from the spec: `Configuration` (render_settings.rs, not under
src/) holds the three ordered attribute maps the orchestrator consumes:
core, router and channel configuration (§4.6, lib.rs lines 278-280). -/
structure Configuration where
  core_config : List (String × FieldConfiguration)
  router_config : List (String × FieldConfiguration)
  channel_config : List (String × FieldConfiguration)
deriving DecidableEq, Repr

/-- `BTreeMap::remove` on the association-list model: the removed entry's
value (if any) and the map with every entry of that key dropped and all
other entries unchanged. -/
def removeKey (m : List (String × FieldConfiguration)) (k : String) :
    Option FieldConfiguration × List (String × FieldConfiguration) :=
  (m.lookup k, m.filter (fun kv => kv.1 != k))

/-- Modelled from the spec: reserved channel-configuration keys exported by
manycore_parser (not under src/): the routing directive key and the
border-routers visibility key (§4.6 phases 1 and 3). Their concrete
spelling is immaterial; they are distinct reserved strings. -/
def ROUTING_KEY : String := "@routingAlgo"

/-- Reserved border-routers visibility key (see `ROUTING_KEY`). -/
def BORDER_ROUTERS_KEY : String := "@borderRouters"

/-- Modelled from the spec: §6 input collaborator — ManycoreSystem comes
from manycore_parser (not under src/). A core exposes its identity, an
optional allocated task and string-keyed attribute maps for itself and its
router. -/
structure ManycoreCore where
  id : Nat
  allocated_task : Option Nat
  core_attributes : Option (List (String × String))
  router_attributes : Option (List (String × String))
deriving DecidableEq, Repr

/-- Modelled from the spec: the architecture description plus the §6
routing collaborator `route(algorithm)`, a deterministic map from the
requested algorithm to a routing error or to the per-target sets of loaded
link identities. The claims quantify over unchanged architecture state, so
the collaborator is modelled as a pure function field. -/
structure ManycoreSystem where
  rows : Nat
  columns : Nat
  cores : List ManycoreCore
  route : String → Except SVGError (List (RoutingTarget × List Nat))

/-- Per-core aggregated load set (src/lib.rs lines 326-347): the union of
the core-keyed and sink-keyed load sets for enumerate index `i`, `none`
when routing was not requested or yielded nothing for that identity. The
BTreeSet is modelled as a deduplicated list. -/
def get_core_loads
    (links_with_load : Option (List (RoutingTarget × List Nat)))
    (i : Nat) : Option (List Nat) :=
  match links_with_load with
  | some links_loads =>
      let core_loads := (links_loads.lookup (RoutingTarget.Core i)).getD []
      let sink_loads := (links_loads.lookup (RoutingTarget.Sink i)).getD []
      let ret := (core_loads ++ sink_loads).dedup
      if ret.length > 0 then some ret else none
  | none => none

/-- Modelled from the spec: ViewBox (view_box.rs, not under src/) per
§3/§6 — width/height/top-left canvas bounds, resettable to the base extent
and expandable to include edge decorations, serialized as
"<min-x> <min-y> <width> <height>". -/
structure ViewBox where
  min_x : Int
  min_y : Int
  width : Int
  height : Int
deriving DecidableEq, Repr

/-- Base extent of the viewport for a given canvas size. -/
def ViewBox.new (width height : Int) : ViewBox := ⟨0, 0, width, height⟩

/-- Reset to base extent (discards the previous extent entirely). -/
def ViewBox.reset (_vb : ViewBox) (width height : Int) : ViewBox :=
  ViewBox.new width height

/-- Modelled from the spec: margin added for sinks/sources edge decorations
(sinks_sources_layer.rs, not under src/); the claims do not depend on the
value. -/
def EDGE_EXPANSION : Int := 100

/-- Expand the viewport on every side to include edge decorations. -/
def ViewBox.insert_edges (vb : ViewBox) : ViewBox :=
  ⟨vb.min_x - EDGE_EXPANSION, vb.min_y - EDGE_EXPANSION,
   vb.width + 2 * EDGE_EXPANSION, vb.height + 2 * EDGE_EXPANSION⟩

/-- Serialized viewBox payload string. -/
def ViewBox.serialize (vb : ViewBox) : String :=
  toString vb.min_x ++ " " ++ toString vb.min_y ++ " " ++
    toString vb.width ++ " " ++ toString vb.height

/-- Base fill colour (src/style.rs line 5). -/
def DEFAULT_FILL : String := "#e5e5e5"

/-- Base fill class name (src/style.rs line 6). -/
def BASE_FILL_CLASS_NAME : String := "baseFill"

/-- Base stylesheet text (src/style.rs line 7):
".baseFill{fill: #e5e5e5;}". -/
def BASE_STYLE : String :=
  "." ++ BASE_FILL_CLASS_NAME ++ "\x7bfill: " ++ DEFAULT_FILL ++ ";\x7d"

/-- Shared stylesheet (src/style.rs lines 9-22). -/
structure Style where
  css : String
deriving DecidableEq, Repr

/-- `Style::default()` (src/style.rs lines 16-22): the base stylesheet. -/
def Style.default : Style := ⟨BASE_STYLE⟩

/-- Modelled from the spec: the edge-decoration extension of the base
stylesheet enabled with border routers; `Style::base()` is called by lib.rs
line 309 but its body is not under src/ (the src style.rs predates it);
§4.6 phase 3 calls it an extended base. The claims do not depend on the
text, only on it being a fixed constant. -/
def EDGE_BASE_STYLE_EXTENSION : String := "\n.edge\x7bdisplay: block;\x7d"

/-- `Style::base()`: extended base stylesheet (see
`EDGE_BASE_STYLE_EXTENSION`). -/
def Style.base : Style := ⟨BASE_STYLE ++ EDGE_BASE_STYLE_EXTENSION⟩

/-- Overlay layer of one grid cell (src/information_layer.rs lines 66-75):
core group, router group, optional coordinate label. -/
structure InformationLayer where
  core_group : ProcessingInformation
  router_group : ProcessingInformation
  coordinates : Option TextInformation
deriving DecidableEq, Repr

/-- Modelled from the spec: geometry constants from render_settings.rs,
which is not under src/ (§4.1 names box side length, inter-box distance,
router offset and half-side length); the values are representative
positives — no settled claim depends on them. -/
def SIDE_LENGTH : Int := 100

/-- Half of the box side length (see `SIDE_LENGTH`). -/
def HALF_SIDE_LENGTH : Int := 50

/-- Router box offset from its core (see `SIDE_LENGTH`). -/
def ROUTER_OFFSET : Int := 30

/-- Combined extent of one grid block (see `SIDE_LENGTH`). -/
def BLOCK_LENGTH : Int := 130

/-- Distance between adjacent grid blocks (see `SIDE_LENGTH`). -/
def BLOCK_DISTANCE : Int := 20

/-- Modelled from the spec: `Core::get_move_coordinates`
(processing_group.rs, not under src/) — §4.1: a deterministic, saturating
map from grid position to the core box's top-left pixel coordinate. -/
def Core.get_move_coordinates (r c : Nat) : Int × Int :=
  (saturating_mul (c : Int) (BLOCK_LENGTH + BLOCK_DISTANCE),
   saturating_add (saturating_mul (r : Int) (BLOCK_LENGTH + BLOCK_DISTANCE))
     ROUTER_OFFSET)

/-- Modelled from the spec: `Router::get_move_coordinates`
(processing_group.rs, not under src/) — §4.1: the router box sits adjacent
to its core at a fixed offset. -/
def Router.get_move_coordinates (r c : Nat) : Int × Int :=
  (saturating_add (Core.get_move_coordinates r c).1 HALF_SIDE_LENGTH,
   (Core.get_move_coordinates r c).2)

/-- Element view of a core for overlay generation: the core's own id,
identity-selector prefix and attribute map. Modelled from the spec: the
`variant()` spelling comes from manycore_parser (not under src/). -/
def coreTarget (core : ManycoreCore) : Target :=
  ⟨core.id, "c", core.core_attributes⟩

/-- Element view of a core's router for overlay generation. -/
def routerTarget (core : ManycoreCore) : Target :=
  ⟨core.id, "r", core.router_attributes⟩

/-- Embedding of `InformationLayer::new` (src/information_layer.rs lines
110-162) with the stylesheet threaded through as lib.rs's call passes
`self.style.css_mut()`: optionally render the whole-cell coordinate label,
then generate the core group (anchor "start") and the router group (anchor
"end") via `generate_with_id` (the `generate` routine of the src utils.rs
revision). The src revision ignores the per-core loads and the connections
group (the newer call site of lib.rs passes them), so they do not appear
here; coordinates use the threaded Int arithmetic — the u16 wrapping of the
src revision's coordinate lines is analysed separately (claim C7). -/
def InformationLayer.new (r c : Nat) (configuration : Configuration)
    (core : ManycoreCore) (css : String) : InformationLayer × String :=
  let core_xy := Core.get_move_coordinates r c
  let coordinates : Option TextInformation :=
    match configuration.core_config.lookup COORDINATES_KEY with
    | some _ =>
        some (TextInformation.new (core_xy.1 + HALF_SIDE_LENGTH)
          (core_xy.2 + SIDE_LENGTH) DEFAULT_FONT_SIZE "middle"
          "text-before-edge" none
          ("(" ++ toString (r + 1) ++ "," ++ toString (c + 1) ++ ")"))
    | none => none
  let coreStep := generate_with_id core_xy.1 core_xy.2
    configuration.core_config (coreTarget core) ⟨none, []⟩ "start" css
  let router_xy := Router.get_move_coordinates r c
  let router_y := router_xy.2 - ROUTER_OFFSET
  let router_x := router_xy.1 + SIDE_LENGTH - 2 * OFFSET_FROM_BORDER
  let routerStep := generate_with_id router_x router_y
    configuration.router_config (routerTarget core) ⟨none, []⟩ "end" coreStep.2
  (⟨coreStep.1, routerStep.1, coordinates⟩, routerStep.2)

/-- Modelled from the spec: XML serialization (quick_xml) is out of scope
(§1), so the payload markup is a deterministic textual encoding of a text
record's fields. -/
def TextInformation.serialize (t : TextInformation) : String :=
  "<text x=" ++ toString t.x ++ " y=" ++ toString t.y ++
  " font-size=" ++ t.font_size ++ " font-family=" ++ t.font_family ++
  " text-anchor=" ++ t.text_anchor ++
  " dominant-baseline=" ++ t.dominant_baseline ++
  " fill=" ++ t.fill ++ ">" ++ t.value ++ "</text>"

/-- Deterministic encoding of one overlay group (see
`TextInformation.serialize`). -/
def ProcessingInformation.serialize (p : ProcessingInformation) : String :=
  "<g" ++ (match p.filter with
           | some f => " filter=" ++ f
           | none => "") ++ ">" ++
  String.join (p.information.map TextInformation.serialize) ++ "</g>"

/-- Deterministic encoding of one cell's overlay layer (see
`TextInformation.serialize`). -/
def InformationLayer.serialize (il : InformationLayer) : String :=
  "<g>" ++ il.core_group.serialize ++ il.router_group.serialize ++
  (match il.coordinates with
   | some t => t.serialize
   | none => "") ++ "</g>"

/-- `InformationGroup::update_string` (src/lib.rs lines 60-78): serialize
the overlay group list and strip the dummy root element — modelled as the
concatenation of the per-layer encodings, which is "" for the empty list as
in the source. -/
def update_string (groups : List InformationLayer) : String :=
  String.join (groups.map InformationLayer.serialize)

/-- Update payload returned by reconfiguration (src/lib.rs lines 141-147):
the stylesheet text, the serialized overlay markup and the viewBox string.
Equality of two `UpdateResult`s is byte-identity of the three strings. -/
structure UpdateResult where
  style : String
  information_group : String
  view_box : String
deriving DecidableEq, Repr

/-- Embedding of the SVG document state relevant to reconfiguration
(src/lib.rs lines 104-139): `rows`, `columns`, `width` and `height` are set
at construction and never written by `update_configurable_information`; the
overlay group list, the view box and the style are the mutable parts it
rebuilds. The untouched static subtrees (defs, processing group,
connections group, sinks/sources group, clip path) play no part in the
settled claims and are omitted. -/
structure SVG where
  rows : Nat
  columns : Nat
  width : Int
  height : Int
  information_groups : List InformationLayer
  view_box : ViewBox
  style : Style

/-- Phases 2-5 of `update_configurable_information` (src/lib.rs lines
295-381), entered only when the routing phase did not fail: clear the
overlay groups, reset the view box, remove the border-routers entry and
re-evaluate the stylesheet/viewport base, then (for a non-empty
configuration, judged on the original maps) rebuild one overlay layer per
core in identity order while threading the stylesheet, and emit the
payload. -/
def SVG.update_after_routing (svg : SVG) (manycore : ManycoreSystem)
    (configuration : Configuration) (not_empty_configuration : Bool)
    (links_with_load : Option (List (RoutingTarget × List Nat))) :
    SVG × Configuration × Except SVGError UpdateResult :=
  let svg := { svg with information_groups := [] }
  let svg := { svg with view_box := svg.view_box.reset svg.width svg.height }
  let removedB := removeKey configuration.channel_config BORDER_ROUTERS_KEY
  let configuration := { configuration with channel_config := removedB.2 }
  let svg :=
    match removedB.1 with
    | some (FieldConfiguration.Boolean show_border_routers) =>
        if show_border_routers then
          { svg with style := Style.base, view_box := svg.view_box.insert_edges }
        else
          { svg with style := Style.default }
    | some _ => { svg with style := Style.default }
    | none => { svg with style := Style.default }
  let svg :=
    if not_empty_configuration then
      let folded := manycore.cores.foldl
        (fun (acc : List InformationLayer × String × Nat) core =>
          let i := acc.2.2
          let _core_loads := get_core_loads links_with_load i
          let step := InformationLayer.new svg.rows svg.columns configuration
            core acc.2.1
          (acc.1 ++ [step.1], step.2, i + 1))
        ([], svg.style.css, 0)
      { svg with information_groups := folded.1, style := ⟨folded.2.1⟩ }
    else svg
  (svg, configuration,
   Except.ok ⟨svg.style.css, update_string svg.information_groups,
     svg.view_box.serialize⟩)

/-- Embedding of `SVG::update_configurable_information` (src/lib.rs lines
272-381). The non-emptiness of the configuration is judged before any
removal; the routing entry is then removed from the channel configuration,
and if it requested routing and the collaborator fails, the call returns
the routing error with the document state untouched (the `?` early return
at line 287); otherwise the remaining phases run. The function returns the
final document state, the final state of the caller's configuration (both
`&mut` in the source) and the call's result. -/
def SVG.update_configurable_information (svg : SVG)
    (manycore : ManycoreSystem) (configuration : Configuration) :
    SVG × Configuration × Except SVGError UpdateResult :=
  let not_empty_configuration :=
    !configuration.core_config.isEmpty ||
    !configuration.router_config.isEmpty ||
    !configuration.channel_config.isEmpty
  let removed := removeKey configuration.channel_config ROUTING_KEY
  let configuration := { configuration with channel_config := removed.2 }
  match removed.1 with
  | some (FieldConfiguration.Routing routing_configuration) =>
      match manycore.route routing_configuration.algorithm with
      | Except.error e => (svg, configuration, Except.error e)
      | Except.ok links =>
          svg.update_after_routing manycore configuration
            not_empty_configuration (some links)
  | some _ =>
      svg.update_after_routing manycore configuration
        not_empty_configuration none
  | none =>
      svg.update_after_routing manycore configuration
        not_empty_configuration none

/-- Discriminator for the call result: true on the ok path. -/
def exceptIsOk : Except SVGError UpdateResult → Bool
  | Except.ok _ => true
  | Except.error _ => false

/-- Phases 2-5 never write the static document fields. -/
theorem after_routing_statics (svg : SVG) (m : ManycoreSystem)
    (c : Configuration) (ne : Bool)
    (lw : Option (List (RoutingTarget × List Nat))) :
    (svg.update_after_routing m c ne lw).1.rows = svg.rows ∧
    (svg.update_after_routing m c ne lw).1.columns = svg.columns ∧
    (svg.update_after_routing m c ne lw).1.width = svg.width ∧
    (svg.update_after_routing m c ne lw).1.height = svg.height := by
  simp only [SVG.update_after_routing]
  repeat' split
  all_goals exact ⟨rfl, rfl, rfl, rfl⟩

/-- Phases 2-5 return the same payload for any two documents agreeing on
the static fields: the mutable parts are all rebuilt before being read. -/
theorem after_routing_result_congr (a b : SVG) (m : ManycoreSystem)
    (c : Configuration) (ne : Bool)
    (lw : Option (List (RoutingTarget × List Nat)))
    (h1 : a.rows = b.rows) (h2 : a.columns = b.columns)
    (h3 : a.width = b.width) (h4 : a.height = b.height) :
    (a.update_after_routing m c ne lw).2.2 =
      (b.update_after_routing m c ne lw).2.2 := by
  obtain ⟨ar, ac, aw, ah, ag, avb, ast⟩ := a
  obtain ⟨br, bc, bw, bh, bg, bvb, bst⟩ := b
  simp only at h1 h2 h3 h4
  subst h1 h2 h3 h4
  simp only [SVG.update_after_routing, ViewBox.reset, ViewBox.new]

/-- Phases 2-5 return the configuration with only the border-routers entry
further removed, and always succeed. -/
theorem after_routing_conf (svg : SVG) (m : ManycoreSystem)
    (c : Configuration) (ne : Bool)
    (lw : Option (List (RoutingTarget × List Nat))) :
    (svg.update_after_routing m c ne lw).2.1 =
      { c with channel_config := (removeKey c.channel_config BORDER_ROUTERS_KEY).2 } ∧
    exceptIsOk (svg.update_after_routing m c ne lw).2.2 = true := by
  constructor <;> simp [SVG.update_after_routing, exceptIsOk]

/-- C2: calling `update_configurable_information` twice in succession with
the same configuration value and the same (unchanged) architecture state
returns equal call results; `UpdateResult` equality is byte-identity of the
style string, the information_group string and the view_box string, so on
the ok path the two payloads are byte-identical (and on the error path the
same error is returned). -/
theorem C2_reconfiguration_idempotent (svg : SVG) (manycore : ManycoreSystem)
    (configuration : Configuration) :
    ((svg.update_configurable_information manycore
          configuration).1.update_configurable_information manycore
        configuration).2.2 =
      (svg.update_configurable_information manycore configuration).2.2 := by
  simp only [SVG.update_configurable_information]
  rcases hr : (removeKey configuration.channel_config ROUTING_KEY).1 with _ | fc
  · simp only [hr]
    have hs := after_routing_statics svg manycore
      { configuration with
        channel_config := (removeKey configuration.channel_config ROUTING_KEY).2 }
      (!configuration.core_config.isEmpty ||
       !configuration.router_config.isEmpty ||
       !configuration.channel_config.isEmpty) none
    exact after_routing_result_congr _ _ _ _ _ _ hs.1 hs.2.1 hs.2.2.1 hs.2.2.2
  · cases fc with
    | Routing rc =>
        simp only [hr]
        rcases he : manycore.route rc.algorithm with e | links
        · simp only [he]
        · simp only [he]
          have hs := after_routing_statics svg manycore
            { configuration with
              channel_config := (removeKey configuration.channel_config ROUTING_KEY).2 }
            (!configuration.core_config.isEmpty ||
             !configuration.router_config.isEmpty ||
             !configuration.channel_config.isEmpty) (some links)
          exact after_routing_result_congr _ _ _ _ _ _ hs.1 hs.2.1 hs.2.2.1
            hs.2.2.2
    | Text title =>
        simp only [hr]
        have hs := after_routing_statics svg manycore
          { configuration with
            channel_config := (removeKey configuration.channel_config ROUTING_KEY).2 }
          (!configuration.core_config.isEmpty ||
           !configuration.router_config.isEmpty ||
           !configuration.channel_config.isEmpty) none
        exact after_routing_result_congr _ _ _ _ _ _ hs.1 hs.2.1 hs.2.2.1 hs.2.2.2
    | Fill cc =>
        simp only [hr]
        have hs := after_routing_statics svg manycore
          { configuration with
            channel_config := (removeKey configuration.channel_config ROUTING_KEY).2 }
          (!configuration.core_config.isEmpty ||
           !configuration.router_config.isEmpty ||
           !configuration.channel_config.isEmpty) none
        exact after_routing_result_congr _ _ _ _ _ _ hs.1 hs.2.1 hs.2.2.1 hs.2.2.2
    | ColouredText title cc =>
        simp only [hr]
        have hs := after_routing_statics svg manycore
          { configuration with
            channel_config := (removeKey configuration.channel_config ROUTING_KEY).2 }
          (!configuration.core_config.isEmpty ||
           !configuration.router_config.isEmpty ||
           !configuration.channel_config.isEmpty) none
        exact after_routing_result_congr _ _ _ _ _ _ hs.1 hs.2.1 hs.2.2.1 hs.2.2.2
    | Boolean fl =>
        simp only [hr]
        have hs := after_routing_statics svg manycore
          { configuration with
            channel_config := (removeKey configuration.channel_config ROUTING_KEY).2 }
          (!configuration.core_config.isEmpty ||
           !configuration.router_config.isEmpty ||
           !configuration.channel_config.isEmpty) none
        exact after_routing_result_congr _ _ _ _ _ _ hs.1 hs.2.1 hs.2.2.1 hs.2.2.2

/-- C3: when the channel configuration carries a Routing entry and the
routing collaborator fails, the call returns exactly that routing error and
the document is left untouched: the overlay groups, the stylesheet and the
view box (indeed the whole document state) are exactly what they were
before the failed call — no partial overlay is produced. -/
theorem C3_routing_error_aborts (svg : SVG) (manycore : ManycoreSystem)
    (configuration : Configuration) (rc : RoutingConfiguration) (e : SVGError)
    (hkey : configuration.channel_config.lookup ROUTING_KEY
      = some (FieldConfiguration.Routing rc))
    (herr : manycore.route rc.algorithm = Except.error e) :
    (svg.update_configurable_information manycore configuration).2.2
      = Except.error e ∧
    ((svg.update_configurable_information manycore configuration).1).information_groups = svg.information_groups ∧
    ((svg.update_configurable_information manycore configuration).1).style = svg.style ∧
    ((svg.update_configurable_information manycore configuration).1).view_box = svg.view_box ∧
    (svg.update_configurable_information manycore configuration).1 = svg := by
  simp only [SVG.update_configurable_information, removeKey]
  simp [hkey, herr]

/-- Witness for C3: a failing routing collaborator on a one-core document
with a Routing channel entry. -/
theorem C3_routing_error_aborts_witness :
    (SVG.update_configurable_information
        ⟨1, 1, 10, 10, [], ⟨0, 0, 10, 10⟩, Style.default⟩
        ⟨1, 1, [⟨0, none, some [], some []⟩],
         fun _ => Except.error ⟨SVGErrorKind.ConfigurationError "unsupported"⟩⟩
        ⟨[], [], [(ROUTING_KEY, FieldConfiguration.Routing ⟨"RowFirst"⟩)]⟩).2.2
      = Except.error ⟨SVGErrorKind.ConfigurationError "unsupported"⟩ ∧
    ((SVG.update_configurable_information
        ⟨1, 1, 10, 10, [], ⟨0, 0, 10, 10⟩, Style.default⟩
        ⟨1, 1, [⟨0, none, some [], some []⟩],
         fun _ => Except.error ⟨SVGErrorKind.ConfigurationError "unsupported"⟩⟩
        ⟨[], [], [(ROUTING_KEY, FieldConfiguration.Routing ⟨"RowFirst"⟩)]⟩).1).information_groups = [] := by
  have h := C3_routing_error_aborts
    ⟨1, 1, 10, 10, [], ⟨0, 0, 10, 10⟩, Style.default⟩
    ⟨1, 1, [⟨0, none, some [], some []⟩],
     fun _ => Except.error ⟨SVGErrorKind.ConfigurationError "unsupported"⟩⟩
    ⟨[], [], [(ROUTING_KEY, FieldConfiguration.Routing ⟨"RowFirst"⟩)]⟩
    ⟨"RowFirst"⟩ ⟨SVGErrorKind.ConfigurationError "unsupported"⟩
    (by decide) rfl
  exact ⟨h.1, h.2.1⟩

/-- Configuration frame of the non-error path: after the routing entry was
removed, phases 2-5 additionally remove only the border-routers entry. -/
theorem c10_ok_branch (svg : SVG) (m : ManycoreSystem) (c : Configuration)
    (ne : Bool) (lw : Option (List (RoutingTarget × List Nat))) :
    (svg.update_after_routing m
        { c with channel_config := (removeKey c.channel_config ROUTING_KEY).2 }
        ne lw).2.1.core_config = c.core_config ∧
    (svg.update_after_routing m
        { c with channel_config := (removeKey c.channel_config ROUTING_KEY).2 }
        ne lw).2.1.router_config = c.router_config ∧
    (svg.update_after_routing m
        { c with channel_config := (removeKey c.channel_config ROUTING_KEY).2 }
        ne lw).2.1.channel_config =
      (if exceptIsOk (svg.update_after_routing m
          { c with channel_config := (removeKey c.channel_config ROUTING_KEY).2 }
          ne lw).2.2 = true then
        (removeKey (removeKey c.channel_config ROUTING_KEY).2
          BORDER_ROUTERS_KEY).2
       else
        (removeKey c.channel_config ROUTING_KEY).2) := by
  have hc := after_routing_conf svg m
    { c with channel_config := (removeKey c.channel_config ROUTING_KEY).2 }
    ne lw
  refine ⟨?_, ?_, ?_⟩
  · rw [hc.1]
  · rw [hc.1]
  · rw [hc.1, if_pos hc.2]

/-- C10: every call removes the routing entry from the caller's channel
configuration — also when it returns a routing error — and on the non-error
path removes the border-routers entry as well; the core and router
configurations and every other channel entry are left unchanged (removeKey
drops exactly the entries with the given key). -/
theorem C10_caller_configuration_mutated (svg : SVG)
    (manycore : ManycoreSystem) (configuration : Configuration) :
    (svg.update_configurable_information manycore configuration).2.1.core_config
      = configuration.core_config ∧
    ((svg.update_configurable_information manycore configuration).2.1).router_config = configuration.router_config ∧
    ((svg.update_configurable_information manycore configuration).2.1).channel_config =
      (if exceptIsOk
          (svg.update_configurable_information manycore configuration).2.2
          = true then
        (removeKey (removeKey configuration.channel_config ROUTING_KEY).2
          BORDER_ROUTERS_KEY).2
       else
        (removeKey configuration.channel_config ROUTING_KEY).2) := by
  rcases hr : (removeKey configuration.channel_config ROUTING_KEY).1 with _ | fc
  · simp only [SVG.update_configurable_information, hr]
    exact c10_ok_branch svg manycore configuration _ none
  · cases fc with
    | Routing rc =>
        rcases he : manycore.route rc.algorithm with e | links
        · simp [SVG.update_configurable_information, hr, he, exceptIsOk]
        · simp only [SVG.update_configurable_information, hr, he]
          exact c10_ok_branch svg manycore configuration _ (some links)
    | Text title =>
        simp only [SVG.update_configurable_information, hr]
        exact c10_ok_branch svg manycore configuration _ none
    | Fill cc =>
        simp only [SVG.update_configurable_information, hr]
        exact c10_ok_branch svg manycore configuration _ none
    | ColouredText title cc =>
        simp only [SVG.update_configurable_information, hr]
        exact c10_ok_branch svg manycore configuration _ none
    | Boolean fl =>
        simp only [SVG.update_configurable_information, hr]
        exact c10_ok_branch svg manycore configuration _ none

/-- Wrapping u16 addition: Rust release-profile `+` on the u16 coordinates
of the src information_layer.rs revision (debug profile panics instead;
either way the sum is not clamped). -/
def u16_add (a b : Nat) : Nat := (a + b) % 65536

/-- Wrapping u16 subtraction: Rust release-profile `-` on u16. -/
def u16_sub (a b : Nat) : Nat := (a % 65536 + 65536 - b % 65536) % 65536

/-- Saturating u16 subtraction: clamps at 0, the behaviour the claim
asserts ("coordinates never become negative ... clamping at the
representable bounds"). -/
def saturating_sub_u16 (a b : Nat) : Nat := a - b

/-- Saturating u16 addition: clamps at 65535. -/
def saturating_add_u16 (a b : Nat) : Nat := min (a + b) 65535

/-- Embedding of src/information_layer.rs line 149,
`router_y -= ROUTER_OFFSET`, the router overlay anchor computation, on that
revision's u16 coordinates; parametric in the router-offset constant, which
lives in render_settings.rs (not under src/). -/
def router_anchor_y (router_y router_offset : Nat) : Nat :=
  u16_sub router_y router_offset

/-- Embedding of src/information_layer.rs line 124,
`let x = core_x + HALF_SIDE_LENGTH`, the coordinate-label anchor
computation, parametric in the half-side constant. -/
def coordinates_anchor_x (core_x half_side_length : Nat) : Nat :=
  u16_add core_x half_side_length

/-- C7 counterexample: the coordinate computations of
`InformationLayer::new` (src/information_layer.rs lines 124-125 and
149-150) do not use saturating arithmetic. At router_y = 0 with a positive
offset 1 the u16 subtraction of line 149 wraps to 65535 instead of clamping
to 0, and at core_x = 65535 the u16 addition of line 124 wraps to 0 instead
of clamping to 65535 — refuting "every pixel-coordinate computation ...
uses saturating arithmetic ... never wrap[s] on overflow". -/
theorem C7_counterexample :
    router_anchor_y 0 1 = 65535 ∧
    router_anchor_y 0 1 ≠ saturating_sub_u16 0 1 ∧
    coordinates_anchor_x 65535 1 = 0 ∧
    coordinates_anchor_x 65535 1 ≠ saturating_add_u16 65535 1 := by decide

/-- C7 amended: the overlay text padding computation in `generate_with_id`
(src/information_layer/utils.rs lines 58-60) does use saturating
arithmetic — for any i32 coordinate, adding the border padding clamps at
the i32 bounds, stays in range and never wraps — but the coordinate
computations of the `InformationLayer::new` revision under src
(src/information_layer.rs lines 124-125 and 149-150) use plain u16
arithmetic, which wraps (release profile; panics in debug) instead of
clamping when the result leaves the u16 range. -/
theorem C7_amended_saturating_padding (x : Int)
    (hlo : I32_MIN ≤ x) (hhi : x ≤ I32_MAX) :
    saturating_add x OFFSET_FROM_BORDER = min (x + OFFSET_FROM_BORDER) I32_MAX ∧
    I32_MIN ≤ saturating_add x OFFSET_FROM_BORDER ∧
    saturating_add x OFFSET_FROM_BORDER ≤ I32_MAX ∧
    router_anchor_y 0 1 = 65535 := by
  refine ⟨?_, ?_, ?_, by decide⟩ <;>
    simp only [saturating_add, OFFSET_FROM_BORDER, I32_MIN, I32_MAX] at * <;>
    omega

/-- Witness for the amended C7 at x = 5. -/
theorem C7_amended_saturating_padding_witness :
    saturating_add 5 OFFSET_FROM_BORDER = min (5 + OFFSET_FROM_BORDER) I32_MAX ∧
    I32_MIN ≤ saturating_add 5 OFFSET_FROM_BORDER ∧
    saturating_add 5 OFFSET_FROM_BORDER ≤ I32_MAX ∧
    router_anchor_y 0 1 = 65535 := by
  exact C7_amended_saturating_padding 5 (by decide) (by decide)
